import Mathlib

/-!
Verification development for the force-directed entity-graph engine in
`src/frontend/components/EntityGraph.tsx`.

The TypeScript component is shallowly embedded here:
* graph records (`GraphNode`, `GraphEdge`, `GraphData`, `SimNode`) become
  Lean structures with `ℚ` in place of JS numbers;
* `Math.sqrt` is kept abstract: every simulator definition is parametrised
  by a function `sq : ℚ → ℚ`, so theorems that hold for every `sq` in
  particular hold for the real square root, and theorems that need a
  numeric value of the root take an explicit hypothesis on `sq` at the
  argument actually used;
* the per-frame mutation loops (repulsion, springs, integration) become
  folds over index pairs / edge lists with `List.set` updates;
* `parseFloat` is embedded as a total parser into a JS-number type
  (`nan` / infinities / exact rational value).
-/

/- Batteries marks the `Rat` arithmetic operations `@[irreducible]` (an
elaboration-performance measure). Restore the default reducibility so that
closed simulator states evaluate under `decide`; the kernel ignores
reducibility attributes, so this changes nothing about what is provable. -/
set_option allowUnsafeReducibility true in
attribute [semireducible] Rat.add Rat.mul Rat.sub Rat.neg Rat.inv Rat.div Rat.ofScientific

namespace EntityGraph

/-- `metadata` bag of a graph node; the component only reads the
`is_primary` flag (`n.metadata?.is_primary`). -/
structure MetaBag where
  is_primary : Bool
deriving DecidableEq

/-- `GraphNode` from EntityGraph.tsx. -/
structure GraphNode where
  id : String
  label : String
  type : String
  risk : Bool
  country : String
  metadata : Option MetaBag
deriving DecidableEq

/-- `GraphEdge` from EntityGraph.tsx. -/
structure GraphEdge where
  source : String
  target : String
  label : String
  amount : Option ℚ
  tx_id : Option String
deriving DecidableEq

/-- `GraphData` from EntityGraph.tsx. -/
structure GraphData where
  nodes : List GraphNode
  edges : List GraphEdge
  alert_id : String
deriving DecidableEq

/-- `SimNode` from EntityGraph.tsx: a `GraphNode` extended with mutable
simulation state. -/
structure SimNode where
  id : String
  label : String
  type : String
  risk : Bool
  country : String
  metadata : Option MetaBag
  x : ℚ
  y : ℚ
  vx : ℚ
  vy : ℚ
  radius : ℚ
deriving DecidableEq

/-- Placeholder node used as the default of `List.getD`; all list reads in
the embedded loops are in range, so it never influences results. -/
def dflt : SimNode :=
  { id := "", label := "", type := "", risk := false, country := "",
    metadata := none, x := 0, y := 0, vx := 0, vy := 0, radius := 0 }

/-! ## JS number parsing (`parseFloat`) -/

/-- Result of JS `parseFloat`: `NaN`, an infinity, or a finite value
(modelled as an exact rational). -/
inductive JSNum where
  | nan
  | posInf
  | negInf
  | val (q : ℚ)
deriving DecidableEq

/-- JS `x > b` for the result of `parseFloat`: `NaN > b` is false,
`Infinity > b` is true, `-Infinity > b` is false. -/
def jsGT (x : JSNum) (b : ℚ) : Bool :=
  match x with
  | .nan => false
  | .posInf => true
  | .negInf => false
  | .val q => decide (b < q)

/-- Whitespace skipped by `parseFloat` (the ASCII cases plus NBSP). -/
def jsWhitespace (c : Char) : Bool :=
  c == ' ' || c == '\t' || c == '\n' || c == '\r' || c == '\x0b' ||
    c == '\x0c' || c == '\xa0'

/-- Numeric value of a decimal digit character. -/
def digToNat (c : Char) : Nat := c.toNat - '0'.toNat

/-- Value of a digit string read most-significant first. -/
def natOfDigits (ds : List Char) : Nat :=
  ds.foldl (fun a c => a * 10 + digToNat c) 0

/-- Split a character list into its leading decimal digits and the rest. -/
def takeDigits (cs : List Char) : List Char × List Char :=
  (cs.takeWhile (·.isDigit), cs.dropWhile (·.isDigit))

/-- Consume an optional sign, returning `1` or `-1` and the rest. -/
def parseSign (cs : List Char) : Int × List Char :=
  match cs with
  | '+' :: r => (1, r)
  | '-' :: r => (-1, r)
  | _ => (1, cs)

/-- Consume an optional exponent part `e`/`E` `sign?` `digits`; if the
digits are missing the exponent is not consumed (JS semantics). -/
def parseExp (cs : List Char) : Int :=
  match cs with
  | c :: rest =>
    if c == 'e' || c == 'E' then
      let sr := parseSign rest
      let dr := takeDigits sr.2
      if dr.1.isEmpty then 0 else sr.1 * (natOfDigits dr.1 : Int)
    else 0
  | [] => 0

/-- JS `parseFloat` on a character list: skip leading whitespace, read an
optional sign, then either `Infinity` or `digits [. digits] [exp]`,
ignoring any trailing garbage; no valid prefix gives `NaN`. -/
def parseFloatChars (cs : List Char) : JSNum :=
  let cs0 := cs.dropWhile jsWhitespace
  let sr := parseSign cs0
  let sgn : Int := sr.1
  let cs1 := sr.2
  if cs1.take 8 = "Infinity".data then
    (if sgn = 1 then .posInf else .negInf)
  else
    let ir := takeDigits cs1
    let fr : List Char × List Char :=
      match ir.2 with
      | '.' :: r => takeDigits r
      | _ => ([], ir.2)
    if ir.1.isEmpty && fr.1.isEmpty then .nan
    else
      let ex : Int := parseExp fr.2
      let mant : Int := sgn * (natOfDigits (ir.1 ++ fr.1) : Int)
      let base : ℚ := (mant : ℚ) / (10 : ℚ) ^ fr.1.length
      .val (if 0 ≤ ex then base * (10 : ℚ) ^ ex.toNat
            else base / (10 : ℚ) ^ (-ex).toNat)

/-- `label.replace(/[$,]/g, "")`: drop every `$` and `,` character. -/
def stripCur (s : String) : List Char :=
  s.data.filter (fun c => !(c == '$' || c == ','))

/-- `edge.label.includes("$") && parseFloat(edge.label.replace(/[$,]/g, "")) > 50000`
(EntityGraph.tsx line 143). -/
def isSuspicious (label : String) : Bool :=
  label.data.contains '$' && jsGT (parseFloatChars (stripCur label)) 50000

example : isSuspicious "$50,001" = true := by decide
example : isSuspicious "$50,000" = false := by decide
example : isSuspicious "50000" = false := by decide
example : isSuspicious "$wire" = false := by decide
example : parseFloatChars (stripCur "$1e5") = .val 100000 := by decide

/-! ## Physics simulation step -/

/-- `const k = 0.005` (spring constant). -/
def k : ℚ := 0.005

/-- `const repulsion = 3000`. -/
def repulsion : ℚ := 3000

/-- `const damping = 0.85`. -/
def damping : ℚ := 0.85

/-- `const centerForce = 0.01`. -/
def centerForce : ℚ := 0.01

/-- `Math.max(Math.sqrt(dx*dx + dy*dy), 1)`: the inter-node distance,
floored at 1, used as divisor in both the repulsion and the spring loop.
`sq` stands for `Math.sqrt`. -/
def distFloored (sq : ℚ → ℚ) (dx dy : ℚ) : ℚ :=
  max (sq (dx * dx + dy * dy)) 1

/-- Body of the repulsion double loop for one index pair `(i, j)`
(EntityGraph.tsx lines 72-85): compute the pair force once and apply it
with opposite signs to nodes `i` and `j`. -/
def applyPair (sq : ℚ → ℚ) (ns : List SimNode) (ij : Nat × Nat) : List SimNode :=
  let a := ns.getD ij.1 dflt
  let b := ns.getD ij.2 dflt
  let dx := b.x - a.x
  let dy := b.y - a.y
  let dist := distFloored sq dx dy
  let force := repulsion / (dist * dist)
  let fx := dx / dist * force
  let fy := dy / dist * force
  (ns.set ij.1 { a with vx := a.vx - fx, vy := a.vy - fy }).set ij.2
    { b with vx := b.vx + fx, vy := b.vy + fy }

/-- Index pairs visited by `for i ...; for j = i+1 ...`, in loop order. -/
def pairIndices (n : Nat) : List (Nat × Nat) :=
  (List.range n).flatMap (fun i => ((List.range n).drop (i + 1)).map (fun j => (i, j)))

/-- The full repulsion loop. -/
def repulsionPhase (sq : ℚ → ℚ) (ns : List SimNode) : List SimNode :=
  (pairIndices ns.length).foldl (applyPair sq) ns

/-- `nodeMap.get(id)` as an index: JS `Map` built from the node list keeps,
for duplicate ids, the last insertion, so the lookup returns the last index
whose node carries `id` (ids are unique in well-formed data). -/
def lookupIdx (ns : List SimNode) (s : String) : Option Nat :=
  ((List.range ns.length).filter (fun i => (ns.getD i dflt).id == s)).getLast?

/-- Body of the spring loop for one edge (EntityGraph.tsx lines 89-103):
edges whose endpoints do not both resolve are skipped. -/
def springEdge (sq : ℚ → ℚ) (ns : List SimNode) (e : GraphEdge) : List SimNode :=
  match lookupIdx ns e.source, lookupIdx ns e.target with
  | some si, some ti =>
    let s := ns.getD si dflt
    let t := ns.getD ti dflt
    let dx := t.x - s.x
    let dy := t.y - s.y
    let dist := distFloored sq dx dy
    let force := k * (dist - 120)
    let fx := dx / dist * force
    let fy := dy / dist * force
    let ns1 := ns.set si { s with vx := s.vx + fx, vy := s.vy + fy }
    let t1 := ns1.getD ti dflt
    ns1.set ti { t1 with vx := t1.vx - fx, vy := t1.vy - fy }
  | _, _ => ns

/-- The full spring loop. -/
def springPhase (sq : ℚ → ℚ) (es : List GraphEdge) (ns : List SimNode) : List SimNode :=
  es.foldl (springEdge sq) ns

/-- Center gravity, damping, integration and clamping for one node
(EntityGraph.tsx lines 106-115). -/
def integrateNode (W H : ℚ) (n : SimNode) : SimNode :=
  let vx := (n.vx + (W / 2 - n.x) * centerForce) * damping
  let vy := (n.vy + (H / 2 - n.y) * centerForce) * damping
  { n with
    vx := vx, vy := vy,
    x := max n.radius (min (W - n.radius) (n.x + vx)),
    y := max n.radius (min (H - n.radius) (n.y + vy)) }

/-- The integration loop over all nodes. -/
def integratePhase (W H : ℚ) (ns : List SimNode) : List SimNode :=
  ns.map (integrateNode W H)

/-- One full physics step of `draw`: repulsion, then springs, then center
gravity / damping / integration / clamping. -/
def stepSim (sq : ℚ → ℚ) (W H : ℚ) (es : List GraphEdge) (ns : List SimNode) :
    List SimNode :=
  integratePhase W H (springPhase sq es (repulsionPhase sq ns))

/-! ## Hover hit-testing -/

/-- `Math.sqrt(dx*dx + dy*dy) < node.radius + 5` for the pointer at
`(mx, my)`. -/
def hitPred (sq : ℚ → ℚ) (mx my : ℚ) (n : SimNode) : Bool :=
  decide (sq ((mx - n.x) * (mx - n.x) + (my - n.y) * (my - n.y)) < n.radius + 5)

/-- The `handleMouseMove` scan (EntityGraph.tsx lines 297-305): first node
in list order whose hit test succeeds (the loop breaks at the first match). -/
def hitTest (sq : ℚ → ℚ) (ns : List SimNode) (mx my : ℚ) : Option SimNode :=
  match ns with
  | [] => none
  | n :: rest => if hitPred sq mx my n then some n else hitTest sq rest mx my

/-! ## Tooltip placement -/

/-- Tooltip anchor for a hovered node (EntityGraph.tsx lines 227-232):
`tooltipW = 180`, `tooltipH = 60`; start at `(x+15, y-65)`, flip left of
the node when the right edge would overflow, below it when the top would. -/
def tooltipPos (W : ℚ) (node : SimNode) : ℚ × ℚ :=
  let tooltipW : ℚ := 180
  let tooltipH : ℚ := 60
  let tx := node.x + 15
  let ty := node.y - tooltipH - 5
  let tx2 := if tx + tooltipW > W then node.x - tooltipW - 15 else tx
  let ty2 := if ty < 0 then node.y + 20 else ty
  (tx2, ty2)

/-! ## Simulation (re)initialization -/

/-- `n.metadata?.is_primary` as a boolean. -/
def isPrimary (m : Option MetaBag) : Bool :=
  match m with
  | some b => b.is_primary
  | none => false

/-- Radius derivation of the initialization effect (EntityGraph.tsx line
275): `n.type === "account" ? 8 : n.metadata?.is_primary ? 16 : 12`. -/
def radiusOf (n : GraphNode) : ℚ :=
  if n.type = "account" then 8 else if isPrimary n.metadata then 16 else 12

/-- `graph.nodes.map((n, i) => ...)` of the initialization effect
(EntityGraph.tsx lines 269-276). `rand j` stands for the j-th call of
`Math.random()`; each node consumes two calls, x first, then y. -/
def initNodes (g : GraphData) (rand : Nat → ℚ) (W H : ℚ) : List SimNode :=
  g.nodes.enum.map fun p =>
    { id := p.2.id, label := p.2.label, type := p.2.type, risk := p.2.risk,
      country := p.2.country, metadata := p.2.metadata,
      x := W / 2 + (rand (2 * p.1) - 0.5) * 200,
      y := H / 2 + (rand (2 * p.1 + 1) - 0.5) * 200,
      vx := 0, vy := 0,
      radius := radiusOf p.2 }

/-- Effect of a change of the active `graph` value on `nodesRef.current`
(EntityGraph.tsx lines 256-279): a null or empty graph leaves the node
array untouched (the effect returns early); otherwise the array is rebuilt
from scratch, ignoring the previous array. -/
def onGraphUpdate (prev : List SimNode) (g : Option GraphData) (rand : Nat → ℚ)
    (W H : ℚ) : List SimNode :=
  match g with
  | none => prev
  | some gd => if gd.nodes = [] then prev else initNodes gd rand W H

/-! ## Edge rendering -/

/-- What the renderer emits for one edge: the line's endpoints, whether it
is drawn in the suspicious style, and the label text if any. -/
structure DrawnEdge where
  sx : ℚ
  sy : ℚ
  tx : ℚ
  ty : ℚ
  suspicious : Bool
  labelText : Option String
deriving DecidableEq

/-- Edge rendering (EntityGraph.tsx lines 138-179): edges with an
unresolved endpoint are skipped (`continue`); the label is drawn only when
non-empty (`if (edge.label)`). -/
def renderEdge (ns : List SimNode) (e : GraphEdge) : Option DrawnEdge :=
  match lookupIdx ns e.source, lookupIdx ns e.target with
  | some si, some ti =>
    let s := ns.getD si dflt
    let t := ns.getD ti dflt
    some { sx := s.x, sy := s.y, tx := t.x, ty := t.y,
           suspicious := isSuspicious e.label,
           labelText := if e.label = "" then none else some e.label }
  | _, _ => none

/-! ## Concrete instances used by the closed-form checks

`sqAt s r` models `Math.sqrt` at the single argument a check evaluates it
on: it returns `r` at `s` (chosen so that `r * r = s` and `0 ≤ r`, i.e. it
agrees with the real square root there) and `0` elsewhere. -/

def sqAt (s r : ℚ) : ℚ → ℚ := fun q => if q = s then r else 0

/-- The everywhere-zero stand-in for `Math.sqrt` (agrees with it at 0). -/
def sq0 : ℚ → ℚ := fun _ => 0

/-- A concrete simulation node. -/
def baseNode : SimNode :=
  { id := "a", label := "A", type := "entity", risk := false, country := "US",
    metadata := none, x := 1000, y := -50, vx := 0, vy := 0, radius := 10 }

/-- A concrete graph node. -/
def baseGN : GraphNode :=
  { id := "n", label := "N", type := "entity", risk := false, country := "",
    metadata := none }

/-- A concrete one-node graph. -/
def baseGD : GraphData := { nodes := [baseGN], edges := [], alert_id := "al" }

/-- Node at the origin (pair-force check). -/
def pA : SimNode := { baseNode with x := 0, y := 0 }

/-- Node at `(3, 4)`, distance 5 from `pA`. -/
def pB : SimNode := { baseNode with id := "b", x := 3, y := 4 }

/-- `pA` after the pair force of `(pA, pB)`. -/
def pA' : SimNode := { pA with vx := -72, vy := -96 }

/-- `pB` after the pair force of `(pA, pB)`. -/
def pB' : SimNode := { pB with vx := 72, vy := 96 }

/-- Node coincident with `pA` (distance-floor check). -/
def cpB : SimNode := { baseNode with id := "b", x := 0, y := 0 }

/-- Edge from `pA` to `cpB`. -/
def eAB : GraphEdge :=
  { source := "a", target := "b", label := "", amount := none, tx_id := none }

/-- Edge whose source id `"zz"` resolves to no node. -/
def eZZ : GraphEdge :=
  { source := "zz", target := "a", label := "$60,000", amount := none, tx_id := none }

/-- Radius-8 node at the origin (hit-test checks). -/
def cHit : SimNode := { baseNode with x := 0, y := 0, radius := 8 }

/-- First node of the overlapping-hit-zones check. -/
def cA : SimNode := { baseNode with x := 0, y := 0, radius := 12 }

/-- Second node of the overlapping-hit-zones check, nearer to the pointer. -/
def cB : SimNode := { baseNode with id := "b", x := 10, y := 0, radius := 12 }

/-- Hovered node at `x = 50` on a width-200 canvas (tooltip checks). -/
def cTip : SimNode := { baseNode with x := 50, y := 100 }

/-- Hovered node comfortably inside a width-600 canvas. -/
def cN8 : SimNode := { baseNode with x := 100, y := 100 }

/-- An account-typed graph node that is also flagged primary. -/
def gnAccount : GraphNode :=
  { baseGN with type := "account", metadata := some { is_primary := true } }

/-- A non-account graph node flagged primary. -/
def gnPrimary : GraphNode := { baseGN with metadata := some { is_primary := true } }

/-! ## List helper lemmas

The mutation loops are folds of `List.set` updates; these lemmas track how
`List.getD`, length, membership and per-node projections move through them. -/

theorem getD_set_self (l : List SimNode) (i : Nat) (u d : SimNode)
    (h : i < l.length) : (l.set i u).getD i d = u := by
  induction l generalizing i with
  | nil => simp at h
  | cons a t ih =>
    cases i with
    | zero => rfl
    | succ m => exact ih m (by simpa using h)

theorem getD_set_of_ne (l : List SimNode) (i j : Nat) (u d : SimNode)
    (h : i ≠ j) : (l.set i u).getD j d = l.getD j d := by
  induction l generalizing i j with
  | nil => rfl
  | cons a t ih =>
    cases i with
    | zero =>
      cases j with
      | zero => exact absurd rfl h
      | succ m => rfl
    | succ m =>
      cases j with
      | zero => rfl
      | succ p => exact ih m p (fun hc => h (by rw [hc]))

theorem getD_set_proj {β : Type} (φ : SimNode → β) (l : List SimNode)
    (i : Nat) (u d : SimNode) (hu : φ u = φ (l.getD i d)) (j : Nat) :
    φ ((l.set i u).getD j d) = φ (l.getD j d) := by
  rcases eq_or_ne i j with rfl | hij
  · rcases Nat.lt_or_ge i l.length with hi | hi
    · rw [getD_set_self l i u d hi, hu]
    · rw [List.set_eq_of_length_le hi]
  · rw [getD_set_of_ne l i j u d hij]

theorem exists_getD_of_mem (l : List SimNode) (n d : SimNode) (h : n ∈ l) :
    ∃ j, j < l.length ∧ l.getD j d = n := by
  induction l with
  | nil => simp at h
  | cons a t ih =>
    rcases List.mem_cons.mp h with rfl | ht
    · exact ⟨0, by simp, rfl⟩
    · obtain ⟨j, hj, hget⟩ := ih ht
      exact ⟨j + 1, by simpa using hj, hget⟩

theorem getD_mem (l : List SimNode) (j : Nat) (d : SimNode)
    (h : j < l.length) : l.getD j d ∈ l := by
  induction l generalizing j with
  | nil => simp at h
  | cons a t ih =>
    cases j with
    | zero => exact List.mem_cons_self a t
    | succ m => exact List.mem_cons_of_mem a (ih m (by simpa using h))

theorem foldl_getD_proj {α : Type} {β : Type} (φ : SimNode → β)
    (g : List SimNode → α → List SimNode) (d : SimNode)
    (hg : ∀ ns x j, φ ((g ns x).getD j d) = φ (ns.getD j d))
    (xs : List α) (ns : List SimNode) (j : Nat) :
    φ ((xs.foldl g ns).getD j d) = φ (ns.getD j d) := by
  induction xs generalizing ns with
  | nil => rfl
  | cons x t ih => rw [List.foldl_cons, ih (g ns x), hg]

theorem foldl_length {α : Type} (g : List SimNode → α → List SimNode)
    (hg : ∀ ns x, (g ns x).length = ns.length)
    (xs : List α) (ns : List SimNode) :
    (xs.foldl g ns).length = ns.length := by
  induction xs generalizing ns with
  | nil => rfl
  | cons x t ih => rw [List.foldl_cons, ih (g ns x), hg]

/-! ## Preservation of per-node data through the phases

All three phases only rewrite `x`, `y`, `vx`, `vy`; any projection that
ignores those four fields (such as `radius` or `id`) is unchanged at every
list position, and lengths never change. -/

theorem applyPair_length (sq : ℚ → ℚ) (ns : List SimNode) (ij : Nat × Nat) :
    (applyPair sq ns ij).length = ns.length := by
  simp [applyPair]

theorem applyPair_getD_proj {β : Type} (φ : SimNode → β)
    (hφ : ∀ (n : SimNode) (x' y' vx' vy' : ℚ),
      φ { n with x := x', y := y', vx := vx', vy := vy' } = φ n)
    (sq : ℚ → ℚ) (ns : List SimNode) (ij : Nat × Nat) (j : Nat) :
    φ ((applyPair sq ns ij).getD j dflt) = φ (ns.getD j dflt) := by
  have hv : ∀ (n : SimNode) (vx' vy' : ℚ), φ { n with vx := vx', vy := vy' } = φ n :=
    fun n vx' vy' => hφ n n.x n.y vx' vy'
  simp only [applyPair]
  refine (getD_set_proj φ _ _ _ _ ?_ j).trans (getD_set_proj φ _ _ _ _ ?_ j)
  · exact (hv _ _ _).trans (getD_set_proj φ ns ij.1 _ dflt (hv _ _ _) ij.2).symm
  · exact hv _ _ _

theorem springEdge_length (sq : ℚ → ℚ) (ns : List SimNode) (e : GraphEdge) :
    (springEdge sq ns e).length = ns.length := by
  unfold springEdge
  rcases lookupIdx ns e.source with _ | si
  · rfl
  · rcases lookupIdx ns e.target with _ | ti
    · rfl
    · simp

theorem springEdge_getD_proj {β : Type} (φ : SimNode → β)
    (hφ : ∀ (n : SimNode) (x' y' vx' vy' : ℚ),
      φ { n with x := x', y := y', vx := vx', vy := vy' } = φ n)
    (sq : ℚ → ℚ) (ns : List SimNode) (e : GraphEdge) (j : Nat) :
    φ ((springEdge sq ns e).getD j dflt) = φ (ns.getD j dflt) := by
  have hv : ∀ (n : SimNode) (vx' vy' : ℚ), φ { n with vx := vx', vy := vy' } = φ n :=
    fun n vx' vy' => hφ n n.x n.y vx' vy'
  unfold springEdge
  rcases lookupIdx ns e.source with _ | si
  · rfl
  · rcases lookupIdx ns e.target with _ | ti
    · rfl
    · simp only
      refine (getD_set_proj φ _ _ _ _ ?_ j).trans (getD_set_proj φ _ _ _ _ ?_ j)
      · exact hv _ _ _
      · exact hv _ _ _

theorem integratePhase_length (W H : ℚ) (ns : List SimNode) :
    (integratePhase W H ns).length = ns.length := by
  simp [integratePhase]

theorem integratePhase_getD_proj {β : Type} (φ : SimNode → β)
    (hφ : ∀ (n : SimNode) (x' y' vx' vy' : ℚ),
      φ { n with x := x', y := y', vx := vx', vy := vy' } = φ n)
    (W H : ℚ) (ns : List SimNode) (j : Nat) :
    φ ((integratePhase W H ns).getD j dflt) = φ (ns.getD j dflt) := by
  induction ns generalizing j with
  | nil => rfl
  | cons a t ih =>
    cases j with
    | zero => exact hφ a _ _ _ _
    | succ m => exact ih m

theorem stepSim_length (sq : ℚ → ℚ) (W H : ℚ) (es : List GraphEdge)
    (ns : List SimNode) : (stepSim sq W H es ns).length = ns.length := by
  unfold stepSim springPhase repulsionPhase
  rw [integratePhase_length,
    foldl_length _ (springEdge_length sq),
    foldl_length _ (applyPair_length sq)]

theorem stepSim_getD_proj {β : Type} (φ : SimNode → β)
    (hφ : ∀ (n : SimNode) (x' y' vx' vy' : ℚ),
      φ { n with x := x', y := y', vx := vx', vy := vy' } = φ n)
    (sq : ℚ → ℚ) (W H : ℚ) (es : List GraphEdge) (ns : List SimNode) (j : Nat) :
    φ ((stepSim sq W H es ns).getD j dflt) = φ (ns.getD j dflt) := by
  unfold stepSim springPhase repulsionPhase
  rw [integratePhase_getD_proj φ hφ,
    foldl_getD_proj φ _ dflt (fun a b c => springEdge_getD_proj φ hφ sq a b c),
    foldl_getD_proj φ _ dflt (fun a b c => applyPair_getD_proj φ hφ sq a b c)]

/-! ## Canvas-bounds invariant (clamping) -/

/-- The position of `n` lies in `[radius, W-radius] × [radius, H-radius]`. -/
def inBounds (W H : ℚ) (n : SimNode) : Prop :=
  n.radius ≤ n.x ∧ n.x ≤ W - n.radius ∧ n.radius ≤ n.y ∧ n.y ≤ H - n.radius

/-- The canvas is at least as large as the node's diameter. -/
def radOK (W H : ℚ) (n : SimNode) : Prop :=
  2 * n.radius ≤ W ∧ 2 * n.radius ≤ H

instance (W H : ℚ) (n : SimNode) : Decidable (inBounds W H n) := by
  unfold inBounds
  infer_instance

instance (W H : ℚ) (n : SimNode) : Decidable (radOK W H n) := by
  unfold radOK
  infer_instance

theorem radOK_of_proj (out ns : List SimNode) (W H : ℚ)
    (hlen : out.length = ns.length)
    (hrad : ∀ j, (out.getD j dflt).radius = (ns.getD j dflt).radius)
    (h : ∀ n ∈ ns, radOK W H n) : ∀ n ∈ out, radOK W H n := by
  intro n hn
  obtain ⟨j, hj, hget⟩ := exists_getD_of_mem out n dflt hn
  have hjns : j < ns.length := hlen ▸ hj
  have hns := h (ns.getD j dflt) (getD_mem ns j dflt hjns)
  have hr : n.radius = (ns.getD j dflt).radius := by rw [← hget, hrad j]
  exact ⟨hr ▸ hns.1, hr ▸ hns.2⟩

theorem integrateNode_inBounds (W H : ℚ) (n : SimNode)
    (h1 : 2 * n.radius ≤ W) (h2 : 2 * n.radius ≤ H) :
    inBounds W H (integrateNode W H n) := by
  unfold integrateNode inBounds
  refine ⟨le_max_left _ _, ?_, le_max_left _ _, ?_⟩
  · exact max_le (by linarith) (min_le_left _ _)
  · exact max_le (by linarith) (min_le_left _ _)

theorem stepSim_radOK (sq : ℚ → ℚ) (W H : ℚ) (es : List GraphEdge)
    (ns : List SimNode) (h : ∀ n ∈ ns, radOK W H n) :
    ∀ n ∈ stepSim sq W H es ns, radOK W H n :=
  radOK_of_proj _ ns W H (stepSim_length sq W H es ns)
    (stepSim_getD_proj SimNode.radius (fun _ _ _ _ _ => rfl) sq W H es ns) h

theorem stepSim_inBounds (sq : ℚ → ℚ) (W H : ℚ) (es : List GraphEdge)
    (ns : List SimNode) (h : ∀ n ∈ ns, radOK W H n) :
    ∀ n ∈ stepSim sq W H es ns, inBounds W H n := by
  intro n hn
  unfold stepSim integratePhase at hn
  obtain ⟨m, hm, rfl⟩ := List.mem_map.mp hn
  have hmid : ∀ p ∈ springPhase sq es (repulsionPhase sq ns), radOK W H p := by
    refine radOK_of_proj _ ns W H ?_ ?_ h
    · unfold springPhase repulsionPhase
      rw [foldl_length _ (springEdge_length sq), foldl_length _ (applyPair_length sq)]
    · intro j
      unfold springPhase repulsionPhase
      rw [foldl_getD_proj SimNode.radius _ dflt
          (fun a b c => springEdge_getD_proj SimNode.radius (fun _ _ _ _ _ => rfl) sq a b c),
        foldl_getD_proj SimNode.radius _ dflt
          (fun a b c => applyPair_getD_proj SimNode.radius (fun _ _ _ _ _ => rfl) sq a b c)]
  obtain ⟨hW, hH⟩ := hmid m hm
  exact integrateNode_inBounds W H m hW hH

theorem stepSim_iterate_radOK (sq : ℚ → ℚ) (W H : ℚ) (es : List GraphEdge)
    (ns : List SimNode) (h : ∀ n ∈ ns, radOK W H n) (M : Nat) :
    ∀ n ∈ (stepSim sq W H es)^[M] ns, radOK W H n := by
  induction M with
  | zero => exact h
  | succ m ih =>
    rw [Function.iterate_succ_apply']
    exact stepSim_radOK sq W H es _ ih

/-! ## Lookup lemmas (unresolved edge endpoints) -/

theorem lookupIdx_eq_none (ns : List SimNode) (s : String)
    (h : s ∉ ns.map SimNode.id) : lookupIdx ns s = none := by
  unfold lookupIdx
  have hf : (List.range ns.length).filter (fun i => (ns.getD i dflt).id == s) = [] := by
    rw [List.filter_eq_nil_iff]
    intro i hi hbeq
    have hlt : i < ns.length := List.mem_range.mp hi
    have hid : (ns.getD i dflt).id = s := by
      simpa using hbeq
    exact h (List.mem_map.mpr ⟨ns.getD i dflt, getD_mem ns i dflt hlt, hid⟩)
  rw [hf]
  rfl

theorem springEdge_skip (sq : ℚ → ℚ) (ns : List SimNode) (e : GraphEdge)
    (h : lookupIdx ns e.source = none ∨ lookupIdx ns e.target = none) :
    springEdge sq ns e = ns := by
  unfold springEdge
  rcases h with h | h
  · rw [h]
  · rw [h]
    rcases lookupIdx ns e.source with _ | si <;> rfl

theorem renderEdge_skip (ns : List SimNode) (e : GraphEdge)
    (h : lookupIdx ns e.source = none ∨ lookupIdx ns e.target = none) :
    renderEdge ns e = none := by
  unfold renderEdge
  rcases h with h | h
  · rw [h]
  · rw [h]
    rcases lookupIdx ns e.source with _ | si <;> rfl

theorem lookupIdx_congr (out ns : List SimNode) (s : String)
    (hlen : out.length = ns.length)
    (hid : ∀ j, (out.getD j dflt).id = (ns.getD j dflt).id) :
    lookupIdx out s = lookupIdx ns s := by
  unfold lookupIdx
  rw [hlen]
  congr 1
  apply List.filter_congr
  intro i _
  rw [hid i]

theorem lookupIdx_springPhase (sq : ℚ → ℚ) (pre : List GraphEdge)
    (ns : List SimNode) (s : String) :
    lookupIdx (List.foldl (springEdge sq) ns pre) s = lookupIdx ns s := by
  refine lookupIdx_congr _ ns s ?_ ?_
  · exact foldl_length _ (springEdge_length sq) pre ns
  · exact fun j => foldl_getD_proj SimNode.id _ dflt
      (fun a b c => springEdge_getD_proj SimNode.id (fun _ _ _ _ _ => rfl) sq a b c) pre ns j

/-! ## Unfolding equations for the hit-test loop -/

theorem hitTest_nil (sq : ℚ → ℚ) (mx my : ℚ) : hitTest sq [] mx my = none := rfl

theorem hitTest_cons (sq : ℚ → ℚ) (n : SimNode) (l : List SimNode) (mx my : ℚ) :
    hitTest sq (n :: l) mx my
      = if hitPred sq mx my n then some n else hitTest sq l mx my := rfl

/-! ## Claim theorems -/

/-- C1: an edge is drawn suspicious iff its label contains `"$"` and the
number `parseFloat` extracts from the label with `"$"` and `","` stripped
exceeds 50000 strictly (`jsGT` is the JS `> 50000` on the parse result);
`"$50,001"` is suspicious, `"$50,000"` and `"50000"` and the unparsable
`"$wire"` are not, and an unparsable (`NaN`) numeric content always
classifies as non-suspicious rather than erroring. -/
theorem suspicious_edge_classification :
    (∀ label : String,
      isSuspicious label = true ↔
        ('$' ∈ label.data ∧ jsGT (parseFloatChars (stripCur label)) 50000 = true)) ∧
    isSuspicious "$50,001" = true ∧
    isSuspicious "$50,000" = false ∧
    isSuspicious "50000" = false ∧
    isSuspicious "$wire" = false ∧
    (∀ label : String, parseFloatChars (stripCur label) = JSNum.nan →
      isSuspicious label = false) := by
  refine ⟨?_, by decide, by decide, by decide, by decide, ?_⟩
  · intro label
    unfold isSuspicious
    simp [Bool.and_eq_true]
  · intro label h
    unfold isSuspicious
    rw [h]
    simp [jsGT]

/-- Witness for C1's universally quantified parts at concrete labels. -/
theorem suspicious_edge_classification_witness :
    isSuspicious "$abc" = false ∧
    (isSuspicious "$60,000" = true ↔
      ('$' ∈ "$60,000".data ∧ jsGT (parseFloatChars (stripCur "$60,000")) 50000 = true)) :=
  ⟨suspicious_edge_classification.2.2.2.2.2 "$abc" (by decide),
   suspicious_edge_classification.1 "$60,000"⟩

/-- C2: after one full simulation step each node's position is clamped into
`[radius, W-radius] × [radius, H-radius]` (provided the canvas fits each
node's diameter), with arbitrary edges; and with zero edges any positive
number of steps from any initial configuration keeps every node inside the
canvas — nothing diverges. -/
theorem step_clamps_to_canvas (sq : ℚ → ℚ) (W H : ℚ) (es : List GraphEdge)
    (ns : List SimNode) (h : ∀ n ∈ ns, radOK W H n) :
    (∀ n ∈ stepSim sq W H es ns, inBounds W H n) ∧
    (∀ N : Nat, 1 ≤ N → ∀ n ∈ (stepSim sq W H [])^[N] ns, inBounds W H n) := by
  refine ⟨stepSim_inBounds sq W H es ns h, ?_⟩
  intro N hN
  obtain ⟨m, rfl⟩ : ∃ m, N = m + 1 := ⟨N - 1, by omega⟩
  rw [Function.iterate_succ_apply']
  exact stepSim_inBounds sq W H [] _ (stepSim_iterate_radOK sq W H [] ns h m)

/-- Witness for C2 at a concrete out-of-bounds start: one step and two
steps of the edge-free simulator land the node inside the canvas. -/
theorem step_clamps_to_canvas_witness :
    inBounds 600 400 ((stepSim sq0 600 400 [] [baseNode]).getD 0 dflt) ∧
    inBounds 600 400 (((stepSim sq0 600 400 [])^[2] [baseNode]).getD 0 dflt) := by
  have h := step_clamps_to_canvas sq0 600 400 [] [baseNode] (by decide)
  exact ⟨h.1 _ (by decide), h.2 2 (by decide) _ (by decide)⟩

/-- C3: the repulsion loop's per-pair velocity increments are exact
negations of each other; node `i`'s increment is the force magnitude
`repulsion / dist²` times the unit vector from `j` toward `i` (so the pair
is pushed apart, the coefficient being positive), and — when `sq` takes the
true square-root value on this pair, as the real `Math.sqrt` does — the
squared magnitude of the increment equals the square of
`repulsion / dist²`. -/
theorem repulsion_pair_antisym (sq : ℚ → ℚ) (ns : List SimNode) (i j : Nat)
    (a b a' b' : SimNode) (hij : i ≠ j) (hi : i < ns.length) (hj : j < ns.length)
    (ha : ns.getD i dflt = a) (hb : ns.getD j dflt = b)
    (ha' : (applyPair sq ns (i, j)).getD i dflt = a')
    (hb' : (applyPair sq ns (i, j)).getD j dflt = b')
    (hpos : a.x ≠ b.x ∨ a.y ≠ b.y) :
    (b'.vx - b.vx = -(a'.vx - a.vx) ∧ b'.vy - b.vy = -(a'.vy - a.vy)) ∧
    (a'.vx - a.vx
        = (a.x - b.x) / distFloored sq (b.x - a.x) (b.y - a.y) *
            (repulsion / (distFloored sq (b.x - a.x) (b.y - a.y) *
              distFloored sq (b.x - a.x) (b.y - a.y))) ∧
     a'.vy - a.vy
        = (a.y - b.y) / distFloored sq (b.x - a.x) (b.y - a.y) *
            (repulsion / (distFloored sq (b.x - a.x) (b.y - a.y) *
              distFloored sq (b.x - a.x) (b.y - a.y)))) ∧
    0 < repulsion / (distFloored sq (b.x - a.x) (b.y - a.y) *
          distFloored sq (b.x - a.x) (b.y - a.y)) /
          distFloored sq (b.x - a.x) (b.y - a.y) ∧
    (1 ≤ sq ((b.x - a.x) * (b.x - a.x) + (b.y - a.y) * (b.y - a.y)) →
     sq ((b.x - a.x) * (b.x - a.x) + (b.y - a.y) * (b.y - a.y)) *
       sq ((b.x - a.x) * (b.x - a.x) + (b.y - a.y) * (b.y - a.y))
       = (b.x - a.x) * (b.x - a.x) + (b.y - a.y) * (b.y - a.y) →
     (a'.vx - a.vx) * (a'.vx - a.vx) + (a'.vy - a.vy) * (a'.vy - a.vy)
       = (repulsion / (distFloored sq (b.x - a.x) (b.y - a.y) *
           distFloored sq (b.x - a.x) (b.y - a.y))) *
         (repulsion / (distFloored sq (b.x - a.x) (b.y - a.y) *
           distFloored sq (b.x - a.x) (b.y - a.y)))) := by
  subst ha hb
  set A := ns.getD i dflt with hA
  set B := ns.getD j dflt with hB
  set dx := B.x - A.x with hdx
  set dy := B.y - A.y with hdy
  set dist := distFloored sq dx dy with hdist
  have hone : (1 : ℚ) ≤ dist := le_max_right _ _
  have hd0 : (0 : ℚ) < dist := lt_of_lt_of_le one_pos hone
  have hdne : dist ≠ 0 := ne_of_gt hd0
  set force := repulsion / (dist * dist) with hforce
  have hval : applyPair sq ns (i, j)
      = (ns.set i { A with vx := A.vx - dx / dist * force,
                           vy := A.vy - dy / dist * force }).set j
          { B with vx := B.vx + dx / dist * force,
                   vy := B.vy + dy / dist * force } := rfl
  have hA' : a' = { A with vx := A.vx - dx / dist * force,
                           vy := A.vy - dy / dist * force } := by
    rw [← ha', hval, getD_set_of_ne _ j i _ dflt (Ne.symm hij),
      getD_set_self _ i _ dflt hi]
  have hB' : b' = { B with vx := B.vx + dx / dist * force,
                           vy := B.vy + dy / dist * force } := by
    rw [← hb', hval, getD_set_self _ j _ dflt (by simpa using hj)]
  have hforce_pos : 0 < force := by
    rw [hforce]
    apply div_pos
    · norm_num [repulsion]
    · exact mul_pos hd0 hd0
  subst hA' hB'
  refine ⟨⟨by ring, by ring⟩, ⟨?_, ?_⟩, ?_, ?_⟩
  · rw [hdx]; ring
  · rw [hdy]; ring
  · exact div_pos hforce_pos hd0
  · intro hsq1 hsq2
    have hdd : dist * dist = dx * dx + dy * dy := by
        rw [hdist]
        unfold distFloored
        rw [max_eq_left hsq1]
        exact hsq2
    have h1 : dx / dist * force * (dx / dist * force) + dy / dist * force * (dy / dist * force)
        = (dx * dx + dy * dy) * (force * force) / (dist * dist) := by
      field_simp
      ring
    have key : dx / dist * force * (dx / dist * force) + dy / dist * force * (dy / dist * force)
        = force * force := by
      rw [h1, ← hdd, mul_comm (dist * dist) (force * force), mul_div_assoc,
        div_self (ne_of_gt (mul_pos hd0 hd0)), mul_one]
    linear_combination key

/-- Witness for C3 at the 3-4-5 pair `pA = (0,0)`, `pB = (3,4)`:
`dist = 5`, `force = 120`, increments `(∓72, ∓96)`. -/
theorem repulsion_pair_antisym_witness :
    (pB'.vx - pB.vx = -(pA'.vx - pA.vx) ∧ pB'.vy - pB.vy = -(pA'.vy - pA.vy)) ∧
    (pA'.vx - pA.vx
        = (pA.x - pB.x) / distFloored (sqAt 25 5) (pB.x - pA.x) (pB.y - pA.y) *
            (repulsion / (distFloored (sqAt 25 5) (pB.x - pA.x) (pB.y - pA.y) *
              distFloored (sqAt 25 5) (pB.x - pA.x) (pB.y - pA.y))) ∧
     pA'.vy - pA.vy
        = (pA.y - pB.y) / distFloored (sqAt 25 5) (pB.x - pA.x) (pB.y - pA.y) *
            (repulsion / (distFloored (sqAt 25 5) (pB.x - pA.x) (pB.y - pA.y) *
              distFloored (sqAt 25 5) (pB.x - pA.x) (pB.y - pA.y)))) ∧
    0 < repulsion / (distFloored (sqAt 25 5) (pB.x - pA.x) (pB.y - pA.y) *
          distFloored (sqAt 25 5) (pB.x - pA.x) (pB.y - pA.y)) /
          distFloored (sqAt 25 5) (pB.x - pA.x) (pB.y - pA.y) ∧
    (pA'.vx - pA.vx) * (pA'.vx - pA.vx) + (pA'.vy - pA.vy) * (pA'.vy - pA.vy)
      = (repulsion / (distFloored (sqAt 25 5) (pB.x - pA.x) (pB.y - pA.y) *
          distFloored (sqAt 25 5) (pB.x - pA.x) (pB.y - pA.y))) *
        (repulsion / (distFloored (sqAt 25 5) (pB.x - pA.x) (pB.y - pA.y) *
          distFloored (sqAt 25 5) (pB.x - pA.x) (pB.y - pA.y))) := by
  have h := repulsion_pair_antisym (sqAt 25 5) [pA, pB] 0 1 pA pB pA' pB'
    (by decide) (by decide) (by decide) (by decide) (by decide)
    (by decide) (by decide) (by decide)
  exact ⟨h.1, h.2.1, h.2.2.1, h.2.2.2 (by decide) (by decide)⟩

/-- C4: every inter-node distance used as a divisor is `max(√·, 1) ≥ 1`,
so no division by zero can occur; stepping two nodes at identical
coordinates through the repulsion pair update and through a spring edge
(for any `sq` with the true value `√0 = 0`) leaves both node records
exactly unchanged — well-defined values, no NaN. -/
theorem dist_floor_no_zero_division (sq : ℚ → ℚ) (n m : SimNode) (e : GraphEdge)
    (hs0 : sq 0 = 0) (hx : n.x = m.x) (hy : n.y = m.y) (hid : n.id ≠ m.id)
    (hes : e.source = n.id) (het : e.target = m.id) :
    (∀ (sq' : ℚ → ℚ) (dx dy : ℚ), 1 ≤ distFloored sq' dx dy) ∧
    applyPair sq [n, m] (0, 1) = [n, m] ∧
    springEdge sq [n, m] e = [n, m] := by
  have h0 : m.x - n.x = 0 := by rw [hx]; ring
  have h1 : m.y - n.y = 0 := by rw [hy]; ring
  refine ⟨fun sq' dx dy => le_max_right _ _, ?_, ?_⟩
  · unfold applyPair
    simp only [List.getD_cons_zero, List.getD_cons_succ]
    rw [h0, h1]
    norm_num [distFloored, hs0]
  · have hmn : (m.id == n.id) = false := beq_eq_false_iff_ne.mpr (Ne.symm hid)
    have hnm : (n.id == m.id) = false := beq_eq_false_iff_ne.mpr hid
    have hsrc : lookupIdx [n, m] e.source = some 0 := by
      unfold lookupIdx
      rw [hes]
      simp [List.range_succ, List.getD_cons_zero, List.getD_cons_succ, hmn]
    have htgt : lookupIdx [n, m] e.target = some 1 := by
      unfold lookupIdx
      rw [het]
      simp [List.range_succ, List.getD_cons_zero, List.getD_cons_succ, hnm]
    unfold springEdge
    rw [hsrc, htgt]
    simp only [List.getD_cons_zero, List.getD_cons_succ, List.set_cons_zero,
      List.set_cons_succ]
    rw [h0, h1]
    norm_num [distFloored, hs0]

/-- Witness for C4: the coincident pair `pA`, `cpB` at `(0,0)` with the
edge `eAB` between them; `sq0` has the true square-root value at 0. -/
theorem dist_floor_no_zero_division_witness :
    1 ≤ distFloored sq0 3 4 ∧
    applyPair sq0 [pA, cpB] (0, 1) = [pA, cpB] ∧
    springEdge sq0 [pA, cpB] eAB = [pA, cpB] := by
  have h := dist_floor_no_zero_division sq0 pA cpB eAB
    (by decide) (by decide) (by decide) (by decide) (by decide) (by decide)
  exact ⟨h.1 sq0 3 4, h.2.1, h.2.2⟩

/-- C5: an edge with an unresolved endpoint id is skipped everywhere: the
spring update returns the node list unchanged (no velocity changes), the
renderer draws nothing for it, and deleting it from the edge list does not
change the result of the whole spring phase — it never aborts the frame. -/
theorem unresolved_edge_skipped (sq : ℚ → ℚ) (ns : List SimNode) (e : GraphEdge)
    (h : e.source ∉ ns.map SimNode.id ∨ e.target ∉ ns.map SimNode.id) :
    springEdge sq ns e = ns ∧ renderEdge ns e = none ∧
    (∀ pre post : List GraphEdge,
      springPhase sq (pre ++ e :: post) ns = springPhase sq (pre ++ post) ns) := by
  have hlk : lookupIdx ns e.source = none ∨ lookupIdx ns e.target = none := by
    rcases h with h | h
    · exact Or.inl (lookupIdx_eq_none ns e.source h)
    · exact Or.inr (lookupIdx_eq_none ns e.target h)
  refine ⟨springEdge_skip sq ns e hlk, renderEdge_skip ns e hlk, ?_⟩
  intro pre post
  unfold springPhase
  rw [List.foldl_append, List.foldl_append, List.foldl_cons]
  congr 1
  apply springEdge_skip
  rcases hlk with hl | hl
  · exact Or.inl ((lookupIdx_springPhase sq pre ns e.source).trans hl)
  · exact Or.inr ((lookupIdx_springPhase sq pre ns e.target).trans hl)

/-- Witness for C5: the edge `eZZ` (source id `"zz"`) against the one-node
list `[baseNode]` (id `"a"`). -/
theorem unresolved_edge_skipped_witness :
    springEdge sq0 [baseNode] eZZ = [baseNode] ∧
    renderEdge [baseNode] eZZ = none ∧
    springPhase sq0 [eZZ] [baseNode] = springPhase sq0 [] [baseNode] := by
  have h := unresolved_edge_skipped sq0 [baseNode] eZZ (Or.inl (by decide))
  exact ⟨h.1, h.2.1, h.2.2 [] []⟩

/-- C6: the hover scan returns the first node in list order whose hit test
succeeds — even when a later node also hits and is strictly nearer to the
pointer (squared distances compared). -/
theorem hover_picks_first_in_order (sq : ℚ → ℚ) (pre post : List SimNode)
    (a b : SimNode) (mx my : ℚ)
    (hpre : ∀ m ∈ pre, hitPred sq mx my m = false)
    (ha : hitPred sq mx my a = true)
    (hb : hitPred sq mx my b = true) (hmem : b ∈ post)
    (hnearer : (mx - b.x) * (mx - b.x) + (my - b.y) * (my - b.y)
             < (mx - a.x) * (mx - a.x) + (my - a.y) * (my - a.y)) :
    hitTest sq (pre ++ a :: post) mx my = some a := by
  induction pre with
  | nil =>
    rw [List.nil_append, hitTest_cons, ha]
    rfl
  | cons p ps ih =>
    rw [List.cons_append, hitTest_cons, hpre p (List.mem_cons_self p ps)]
    exact ih (fun q hq => hpre q (List.mem_cons_of_mem p hq))

/-- Witness for C6: both `cA` (first, distance 10 from the pointer) and
`cB` (second, distance 0) hit, and `cA` is returned. -/
theorem hover_picks_first_in_order_witness :
    hitTest (sqAt 100 10) [cA, cB] 10 0 = some cA :=
  hover_picks_first_in_order (sqAt 100 10) [] [cB] cA cB 10 0
    (by decide) (by decide) (by decide) (by decide) (by decide)

/-- C7 as stated is false: the hit condition is
`√(dx²+dy²) < radius + 5`, so a pointer at distance exactly `radius` IS a
hit. Concretely: `cHit` has radius 8 and center `(0,0)`; the pointer
`(8,0)` is at distance exactly 8 (`sqAt 64 8` takes the true square-root
value 8 at the only argument evaluated, 64), and the hit test returns the
node. -/
theorem hit_at_exact_radius :
    sqAt 64 8 ((8 - cHit.x) * (8 - cHit.x) + (0 - cHit.y) * (0 - cHit.y)) = 8 ∧
    cHit.radius = 8 ∧
    hitTest (sqAt 64 8) [cHit] 8 0 = some cHit := by decide

/-- C7 amended: for a single node, a pointer at distance exactly `radius`
IS a hit (since `radius < radius + 5`), a pointer at distance
`radius + 4.9` is a hit, and one at distance exactly `radius + 5` is not
(strict inequality). -/
theorem hit_zone_boundary (sq : ℚ → ℚ) (n : SimNode) (mx my : ℚ) :
    (sq ((mx - n.x) * (mx - n.x) + (my - n.y) * (my - n.y)) = n.radius →
      hitTest sq [n] mx my = some n) ∧
    (sq ((mx - n.x) * (mx - n.x) + (my - n.y) * (my - n.y)) = n.radius + 4.9 →
      hitTest sq [n] mx my = some n) ∧
    (sq ((mx - n.x) * (mx - n.x) + (my - n.y) * (my - n.y)) = n.radius + 5 →
      hitTest sq [n] mx my = none) := by
  refine ⟨fun h => ?_, fun h => ?_, fun h => ?_⟩
  · rw [hitTest_cons, hitPred, h, if_pos (by simp)]
  · rw [hitTest_cons, hitPred, h, if_pos (by simp; norm_num)]
  · rw [hitTest_cons, hitPred, h, if_neg (by simp), hitTest_nil]

/-- Witness for C7's amended statement: pointer at distance
`radius + 4.9 = 12.9` from `cHit` (squared distance `166.41`). -/
theorem hit_zone_boundary_witness :
    hitTest (sqAt (16641 / 100) (129 / 10)) [cHit] (129 / 10) 0 = some cHit :=
  (hit_zone_boundary (sqAt (16641 / 100) (129 / 10)) cHit (129 / 10) 0).2.1
    (by decide)

/-- C8 as stated is false: the tooltip is NOT always inside the canvas.
`cTip` sits at `x = 50` on a width-200 canvas (within the simulation
bounds `[radius, W-radius] = [10, 190]`); the right anchor would overflow
(`50 + 15 + 180 > 200`), so the panel flips to `x - 180 - 15 = -145`,
which lies outside the left canvas edge. -/
theorem tooltip_offscreen_example :
    tooltipPos 200 cTip = (-145, 35) ∧ ((-145 : ℚ) < 0) := by decide

/-- C8 amended: the placement follows exactly the two flip rules (left of
the node when the right edge would overflow, below the node when the top
would), and those rules keep the panel from overflowing the right edge
(when the node is left of `W - 15`) and the top edge (when `0 ≤ y`) — but
they do not keep it entirely inside the canvas (left/bottom may still
overflow, as the counterexample shows). -/
theorem tooltip_flip_rule (W : ℚ) (node : SimNode) :
    tooltipPos W node
      = (if node.x + 15 + 180 > W then node.x - 180 - 15 else node.x + 15,
         if node.y - 60 - 5 < 0 then node.y + 20 else node.y - 60 - 5) ∧
    (node.x + 15 ≤ W → (tooltipPos W node).1 + 180 ≤ W) ∧
    (0 ≤ node.y → 0 ≤ (tooltipPos W node).2) := by
  refine ⟨rfl, fun hx => ?_, fun hy => ?_⟩
  · unfold tooltipPos
    dsimp only
    split_ifs with h
    · linarith
    · linarith [not_lt.mp h]
  · unfold tooltipPos
    dsimp only
    split_ifs with h
    · linarith
    · linarith [not_lt.mp h]

/-- Witness for C8's amended statement at `cN8` on a 600-wide canvas:
the panel respects the right and top edges. -/
theorem tooltip_flip_rule_witness :
    ((tooltipPos 600 cN8).1 + 180 ≤ 600) ∧ (0 ≤ (tooltipPos 600 cN8).2) :=
  ⟨(tooltip_flip_rule 600 cN8).2.1 (by decide),
   (tooltip_flip_rule 600 cN8).2.2 (by decide)⟩

/-- C9: when the active graph changes to a non-empty graph, the node array
is rebuilt from scratch: the result does not depend on the previous array
in any way, every velocity is exactly `(0, 0)`, and every position is
within the `±100` jitter box around the canvas center (given
`Math.random`'s range `[0, 1)`). -/
theorem graph_change_reinitializes (prev prev' : List SimNode) (g : GraphData)
    (rand : Nat → ℚ) (W H : ℚ)
    (hrand : ∀ i, 0 ≤ rand i ∧ rand i < 1) (hne : g.nodes ≠ []) :
    onGraphUpdate prev (some g) rand W H = initNodes g rand W H ∧
    onGraphUpdate prev (some g) rand W H = onGraphUpdate prev' (some g) rand W H ∧
    (∀ n ∈ initNodes g rand W H,
      n.vx = 0 ∧ n.vy = 0 ∧
      W / 2 - 100 ≤ n.x ∧ n.x ≤ W / 2 + 100 ∧
      H / 2 - 100 ≤ n.y ∧ n.y ≤ H / 2 + 100) := by
  have hupd : ∀ p : List SimNode,
      onGraphUpdate p (some g) rand W H = initNodes g rand W H := by
    intro p
    unfold onGraphUpdate
    dsimp only
    rw [if_neg hne]
  refine ⟨hupd prev, (hupd prev).trans (hupd prev').symm, ?_⟩
  intro n hn
  unfold initNodes at hn
  obtain ⟨p, _, rfl⟩ := List.mem_map.mp hn
  obtain ⟨hx0, hx1⟩ := hrand (2 * p.1)
  obtain ⟨hy0, hy1⟩ := hrand (2 * p.1 + 1)
  have h05 : (0.5 : ℚ) = 1 / 2 := by norm_num
  refine ⟨rfl, rfl, ?_, ?_, ?_, ?_⟩ <;> simp only [h05] <;> linarith

/-- Witness for C9 on the one-node graph `baseGD` with the constant
midpoint random stream: both prior arrays give the same fresh state, and
the fresh node is centered with zero velocity. -/
theorem graph_change_reinitializes_witness :
    onGraphUpdate [baseNode] (some baseGD) (fun _ => 0.5) 600 400
      = initNodes baseGD (fun _ => 0.5) 600 400 ∧
    onGraphUpdate [baseNode] (some baseGD) (fun _ => 0.5) 600 400
      = onGraphUpdate [] (some baseGD) (fun _ => 0.5) 600 400 ∧
    (((initNodes baseGD (fun _ => 0.5) 600 400).getD 0 dflt).vx = 0 ∧
     ((initNodes baseGD (fun _ => 0.5) 600 400).getD 0 dflt).vy = 0 ∧
     (600 : ℚ) / 2 - 100 ≤ ((initNodes baseGD (fun _ => 0.5) 600 400).getD 0 dflt).x ∧
     ((initNodes baseGD (fun _ => 0.5) 600 400).getD 0 dflt).x ≤ (600 : ℚ) / 2 + 100 ∧
     (400 : ℚ) / 2 - 100 ≤ ((initNodes baseGD (fun _ => 0.5) 600 400).getD 0 dflt).y ∧
     ((initNodes baseGD (fun _ => 0.5) 600 400).getD 0 dflt).y ≤ (400 : ℚ) / 2 + 100) := by
  have h := graph_change_reinitializes [baseNode] [] baseGD (fun _ => 0.5) 600 400
    (fun i => ⟨by norm_num, by norm_num⟩) (by decide)
  exact ⟨h.1, h.2.1, h.2.2 _ (by decide)⟩

/-- C10: in the SimNode radius derivation the `account` type takes
precedence over the primary flag (an account node gets radius 8 even when
`metadata.is_primary` is true), a non-account primary node gets 16, every
other node gets 12, and the `risk` flag never affects the radius. -/
theorem radius_precedence (n : GraphNode) :
    (n.type = "account" → radiusOf n = 8) ∧
    (n.type ≠ "account" → isPrimary n.metadata = true → radiusOf n = 16) ∧
    (n.type ≠ "account" → isPrimary n.metadata = false → radiusOf n = 12) ∧
    (∀ b : Bool, radiusOf { n with risk := b } = radiusOf n) := by
  refine ⟨fun h => ?_, fun h hp => ?_, fun h hp => ?_, fun b => rfl⟩
  · unfold radiusOf
    rw [if_pos h]
  · unfold radiusOf
    rw [if_neg h, if_pos hp]
  · unfold radiusOf
    rw [if_neg h, if_neg (by rw [hp]; exact Bool.false_ne_true)]

/-- Witness for C10: an account node that is also primary gets radius 8;
a primary entity 16; a plain entity 12; flipping `risk` changes nothing. -/
theorem radius_precedence_witness :
    radiusOf gnAccount = 8 ∧ radiusOf gnPrimary = 16 ∧ radiusOf baseGN = 12 ∧
    radiusOf { baseGN with risk := true } = radiusOf baseGN :=
  ⟨(radius_precedence gnAccount).1 (by decide),
   (radius_precedence gnPrimary).2.1 (by decide) (by decide),
   (radius_precedence baseGN).2.2.1 (by decide) (by decide),
   (radius_precedence baseGN).2.2.2 true⟩

end EntityGraph